import Mathlib

/-
Verification development for the `bmw-ece-ntust/ips-ai` indoor-positioning
pipeline.  The two source files are shallowly embedded:

  * `src/utils/loader.py`         (class `Loader`)
  * `src/models/dnn_regression.py` (class `DNN_Regression`)

Numeric data is modelled over `ℚ` (exact arithmetic in place of IEEE
floats).  The sklearn scalers used by the loader call a floating-point
square root; since a square root of a rational is irrational in general,
every definition that needs it is parametrised by an arbitrary function
`sqrtA : ℚ → ℚ` standing for the library square root, and every theorem
below holds for all choices of `sqrtA`.  Concrete witnesses instantiate
`sqrtA` with a function that agrees with the true square root on the
inputs they evaluate.
-/

namespace IPS

/-! ## Model of the sklearn scalers used by `Loader.__init__`

`Loader.__init__` instantiates one of `StandardScaler`, `MinMaxScaler` or
`Normalizer` (twice: `self.rssi_scaler` and `self.coords_preprocessing`).
A scaler is a mutable object whose `fit_transform` refits it in place; the
embedding threads the scaler state explicitly. -/

/-- Model of the sklearn helper `_handle_zeros_in_scale`: a fitted scale of
zero (a constant feature) is replaced by 1 so that scaling never divides
by zero. -/
def handleZerosInScale (s : ℚ) : ℚ := if s = 0 then 1 else s

/-- Mean of a feature column (sklearn uses the arithmetic mean). -/
def colMean (xs : List ℚ) : ℚ := xs.sum / xs.length

/-- Population variance of a feature column, as `StandardScaler` computes
it (denominator `n`, not `n - 1`). -/
def colVar (xs : List ℚ) : ℚ :=
  ((xs.map (fun x => (x - colMean xs) ^ 2)).sum) / xs.length

/-- Minimum of a feature column (0 for an empty column). -/
def colMin : List ℚ → ℚ
  | [] => 0
  | h :: t => t.foldl min h

/-- Maximum of a feature column (0 for an empty column). -/
def colMax : List ℚ → ℚ
  | [] => 0
  | h :: t => t.foldl max h

/-- Feature columns of a 2-D array: column `j` collects entry `j` of every
row.  On the rectangular arrays sklearn accepts this is the usual
transpose. -/
def columnsOf (X : List (List ℚ)) : List (List ℚ) :=
  (List.range (X.headD []).length).map (fun j => X.map (fun r => r.getD j 0))

/-- State of one of the three sklearn scaler objects the loader can hold.
For `StandardScaler` the fitted data is the per-feature `(mean_, scale_)`
pairs; for `MinMaxScaler` the per-feature `(scale_, min_)` pairs (default
`feature_range = (0, 1)`); `Normalizer` is stateless. -/
inductive Scaler where
  | standard (fitted : Option (List (ℚ × ℚ)))
  | minMax (fitted : Option (List (ℚ × ℚ)))
  | normalizer
deriving DecidableEq, Repr

/-- Per-feature statistics `StandardScaler.fit` stores: `mean_` and
`scale_ = _handle_zeros_in_scale(sqrt(var_))`. -/
def stdFit (sqrtA : ℚ → ℚ) (X : List (List ℚ)) : List (ℚ × ℚ) :=
  (columnsOf X).map (fun c => (colMean c, handleZerosInScale (sqrtA (colVar c))))

/-- Application of fitted `StandardScaler` statistics to one row:
`(x - mean_) / scale_` per feature. -/
def stdTransformRow (st : List (ℚ × ℚ)) (r : List ℚ) : List ℚ :=
  List.zipWith (fun x p => (x - p.1) / p.2) r st

/-- Inverse of `stdTransformRow`: `x * scale_ + mean_` per feature. -/
def stdInverseRow (st : List (ℚ × ℚ)) (r : List ℚ) : List ℚ :=
  List.zipWith (fun x p => x * p.2 + p.1) r st

/-- Per-feature statistics `MinMaxScaler.fit` stores for the default
`feature_range = (0, 1)`:
`scale_ = 1 / _handle_zeros_in_scale(data_max_ - data_min_)` and
`min_ = 0 - data_min_ * scale_`. -/
def mmFit (X : List (List ℚ)) : List (ℚ × ℚ) :=
  (columnsOf X).map (fun c =>
    let sc := 1 / handleZerosInScale (colMax c - colMin c)
    (sc, 0 - colMin c * sc))

/-- Application of fitted `MinMaxScaler` statistics to one row:
`x * scale_ + min_` per feature. -/
def mmTransformRow (st : List (ℚ × ℚ)) (r : List ℚ) : List ℚ :=
  List.zipWith (fun x p => x * p.1 + p.2) r st

/-- Inverse of `mmTransformRow`: `(x - min_) / scale_` per feature. -/
def mmInverseRow (st : List (ℚ × ℚ)) (r : List ℚ) : List ℚ :=
  List.zipWith (fun x p => (x - p.2) / p.1) r st

/-- Sum of squares of a row (the square of its euclidean norm). -/
def sumSq (r : List ℚ) : ℚ := (r.map (fun x => x * x)).sum

/-- Row normalisation as `Normalizer(norm="l2").transform` performs it: the
row is divided by its euclidean norm, rows of norm zero are kept
unchanged (sklearn replaces zero norms by 1 before dividing). -/
def normalizeRow (sqrtA : ℚ → ℚ) (r : List ℚ) : List ℚ :=
  let n := sqrtA (sumSq r)
  if n = 0 then r else r.map (fun x => x / n)

/-- Model of `scaler.fit_transform(X)`: refits the (mutable) scaler object
on `X` and returns the new scaler state together with the transformed
array.  `Normalizer.fit` is a no-op. -/
def fitTransform (sqrtA : ℚ → ℚ) (s : Scaler) (X : List (List ℚ)) :
    Scaler × List (List ℚ) :=
  match s with
  | .standard _ =>
      let st := stdFit sqrtA X
      (.standard (some st), X.map (stdTransformRow st))
  | .minMax _ =>
      let st := mmFit X
      (.minMax (some st), X.map (mmTransformRow st))
  | .normalizer => (.normalizer, X.map (normalizeRow sqrtA))

/-- Model of `scaler.inverse_transform(X)` on a 2-D array.  A fitted
scaler applies the inverse per-feature map when the number of columns of
`X` matches the number of fitted features; otherwise numpy raises a
broadcast `ValueError` (the fitted `scale_` vector cannot be broadcast
against the rows in place).  An unfitted scaler raises `NotFittedError`,
and `Normalizer` has no `inverse_transform` attribute at all. -/
def inverseTransform (s : Scaler) (X : List (List ℚ)) :
    Except String (List (List ℚ)) :=
  match s with
  | .standard none => .error "NotFittedError: This StandardScaler instance is not fitted yet"
  | .standard (some st) =>
      if X.all (fun r => r.length = st.length) then .ok (X.map (stdInverseRow st))
      else .error "ValueError: operands could not be broadcast together"
  | .minMax none => .error "NotFittedError: This MinMaxScaler instance is not fitted yet"
  | .minMax (some st) =>
      if X.all (fun r => r.length = st.length) then .ok (X.map (mmInverseRow st))
      else .error "ValueError: operands could not be broadcast together"
  | .normalizer => .error "AttributeError: Normalizer object has no attribute inverse_transform"

/-- Model of `scaler.inverse_transform` applied to a 1-D array: sklearn
validates its input with `check_array(..., ensure_2d=True)`, which rejects
one-dimensional input whatever the scaler state is. -/
def inverseTransform1D (_s : Scaler) (_v : List ℚ) : Except String (List ℚ) :=
  .error "ValueError: Expected 2D array, got 1D array instead"

/-- Convenience predicate: the scaler kinds that possess an
`inverse_transform` method (`StandardScaler` and `MinMaxScaler`, in any
fit state — `Normalizer` does not). -/
def Scaler.hasInverse : Scaler → Bool
  | .standard _ => true
  | .minMax _ => true
  | .normalizer => false

/-- Rectangularity predicate for a 2-D array: every row has the width of
the first row.  This is what `check_array` enforces on sklearn input. -/
def Rect (X : List (List ℚ)) : Prop :=
  ∀ r ∈ X, r.length = (X.headD []).length

instance (X : List (List ℚ)) : Decidable (Rect X) := by
  unfold Rect; infer_instance

/-! ### Round-trip lemmas for the two invertible scalers -/

theorem handleZerosInScale_ne_zero (s : ℚ) : handleZerosInScale s ≠ 0 := by
  unfold handleZerosInScale
  split
  · exact one_ne_zero
  · assumption

theorem stdFit_scale_ne_zero (sqrtA : ℚ → ℚ) (X : List (List ℚ)) :
    ∀ p ∈ stdFit sqrtA X, p.2 ≠ 0 := by
  intro p hp
  unfold stdFit at hp
  rcases List.mem_map.mp hp with ⟨c, _, rfl⟩
  exact handleZerosInScale_ne_zero _

theorem mmFit_scale_ne_zero (X : List (List ℚ)) :
    ∀ p ∈ mmFit X, p.1 ≠ 0 := by
  intro p hp
  unfold mmFit at hp
  rcases List.mem_map.mp hp with ⟨c, _, rfl⟩
  exact one_div_ne_zero (handleZerosInScale_ne_zero _)

theorem stdFit_length (sqrtA : ℚ → ℚ) (X : List (List ℚ)) :
    (stdFit sqrtA X).length = (X.headD []).length := by
  unfold stdFit columnsOf
  simp

theorem mmFit_length (X : List (List ℚ)) :
    (mmFit X).length = (X.headD []).length := by
  unfold mmFit columnsOf
  simp

theorem stdRow_roundtrip :
    ∀ (st : List (ℚ × ℚ)) (r : List ℚ), r.length = st.length →
      (∀ p ∈ st, p.2 ≠ 0) → stdInverseRow st (stdTransformRow st r) = r := by
  intro st
  induction st with
  | nil =>
      intro r hr _
      rw [List.length_eq_zero.mp hr]
      rfl
  | cons p st ih =>
      intro r hr hs
      match r with
      | [] => simp at hr
      | a :: r2 =>
          simp only [stdTransformRow, stdInverseRow, List.zipWith] at *
          have hp : p.2 ≠ 0 := hs p (List.mem_cons_self p st)
          have head : (a - p.1) / p.2 * p.2 + p.1 = a := by
            rw [div_mul_cancel₀ _ hp]; ring
          have tail := ih r2 (by simpa using hr) (fun q hq => hs q (List.mem_cons_of_mem p hq))
          rw [head, tail]

theorem mmRow_roundtrip :
    ∀ (st : List (ℚ × ℚ)) (r : List ℚ), r.length = st.length →
      (∀ p ∈ st, p.1 ≠ 0) → mmInverseRow st (mmTransformRow st r) = r := by
  intro st
  induction st with
  | nil =>
      intro r hr _
      rw [List.length_eq_zero.mp hr]
      rfl
  | cons p st ih =>
      intro r hr hs
      match r with
      | [] => simp at hr
      | a :: r2 =>
          simp only [mmTransformRow, mmInverseRow, List.zipWith] at *
          have hp : p.1 ≠ 0 := hs p (List.mem_cons_self p st)
          have head : (a * p.1 + p.2 - p.2) / p.1 = a := by
            rw [add_sub_cancel_right, mul_div_cancel_right₀ _ hp]
          have tail := ih r2 (by simpa using hr) (fun q hq => hs q (List.mem_cons_of_mem p hq))
          rw [head, tail]

/-- Round trip for the two scaler kinds that have an `inverse_transform`:
fitting on a rectangular array and transforming it, then inverse
transforming through the scaler in its post-fit state, recovers the array
exactly (exact arithmetic: no floating-point tolerance is needed over ℚ). -/
theorem fitTransform_roundtrip (sqrtA : ℚ → ℚ) (s : Scaler) (X : List (List ℚ))
    (hinv : s.hasInverse = true) (hrect : Rect X) :
    inverseTransform (fitTransform sqrtA s X).1 (fitTransform sqrtA s X).2 = .ok X := by
  cases s with
  | normalizer => simp [Scaler.hasInverse] at hinv
  | standard f =>
      simp only [fitTransform, inverseTransform]
      have hall : ((X.map (stdTransformRow (stdFit sqrtA X))).all
          (fun r => r.length = (stdFit sqrtA X).length)) = true := by
        rw [List.all_eq_true]
        intro r hr
        rcases List.mem_map.mp hr with ⟨r0, hr0, rfl⟩
        have : (stdTransformRow (stdFit sqrtA X) r0).length =
            min r0.length (stdFit sqrtA X).length := by
          unfold stdTransformRow
          exact List.length_zipWith _ _ _
        simp only [this, hrect r0 hr0, stdFit_length]
        simp
      rw [hall]
      simp only [if_true, List.map_map, Except.ok.injEq]
      have : ∀ r ∈ X, (stdInverseRow (stdFit sqrtA X) ∘ stdTransformRow (stdFit sqrtA X)) r = id r := by
        intro r hr
        simp only [Function.comp_apply, id_eq]
        exact stdRow_roundtrip _ r (by rw [hrect r hr, stdFit_length]) (stdFit_scale_ne_zero sqrtA X)
      rw [List.map_congr_left this, List.map_id]
  | minMax f =>
      simp only [fitTransform, inverseTransform]
      have hall : ((X.map (mmTransformRow (mmFit X))).all
          (fun r => r.length = (mmFit X).length)) = true := by
        rw [List.all_eq_true]
        intro r hr
        rcases List.mem_map.mp hr with ⟨r0, hr0, rfl⟩
        have : (mmTransformRow (mmFit X) r0).length =
            min r0.length (mmFit X).length := by
          unfold mmTransformRow
          exact List.length_zipWith _ _ _
        simp only [this, hrect r0 hr0, mmFit_length]
        simp
      rw [hall]
      simp only [if_true, List.map_map, Except.ok.injEq]
      have : ∀ r ∈ X, (mmInverseRow (mmFit X) ∘ mmTransformRow (mmFit X)) r = id r := by
        intro r hr
        simp only [Function.comp_apply, id_eq]
        exact mmRow_roundtrip _ r (by rw [hrect r hr, mmFit_length]) (mmFit_scale_ne_zero X)
      rw [List.map_congr_left this, List.map_id]

/-! ## Model of `src/utils/loader.py` (`class Loader`)

A pandas dataframe row is modelled as a record keeping its pandas index
(`read_csv` assigns distinct indices, which `train_test_split` and
`sample` preserve), the `floor` column, the AP feature columns selected by
`self.no_waps` (cells may be missing), and the `xr` / `yr` coordinate
columns.  Column selection by the `"AP" in name` convention is abstracted:
`aps` holds exactly the cells of the AP-named columns, in column order. -/

structure Row where
  idx : ℕ
  floor : ℤ
  aps : List (Option ℚ)
  xr : ℚ
  yr : ℚ
deriving DecidableEq, Repr, Inhabited

/-- Bundle `TrainLabel` built by `Loader.process_data` (a namedtuple). -/
structure TrainLabel where
  coords : List (List ℚ)
  coords_scaled : List (List ℚ)
  coords_scaler : Scaler
deriving DecidableEq, Repr

/-- Bundle `TrainData` built by `Loader.process_data` (a namedtuple).
Note its fields: `rss`, `rss_scaled`, `rss_scaler`, `labels` — there is no
`power` field. -/
structure TrainData where
  rss : List (List ℚ)
  rss_scaled : List (List ℚ)
  rss_scaler : Scaler
  labels : TrainLabel
deriving DecidableEq, Repr

/-- Bundle `TestLabel` built by `Loader.process_data` (a namedtuple). -/
structure TestLabel where
  coords : List (List ℚ)
  coords_scaled : List (List ℚ)
  coords_scaler : Scaler
deriving DecidableEq, Repr

/-- Bundle `TestData` built by `Loader.process_data` (a namedtuple).  It
has no `rss_scaler` and no `power` field. -/
structure TestData where
  rss : List (List ℚ)
  rss_scaled : List (List ℚ)
  labels : TestLabel
deriving DecidableEq, Repr

/-- Fields of the `Loader` object (`self`).  The field name `prepocessor`
reproduces the attribute name used in the source. -/
structure LoaderState where
  path : String
  frac : ℚ
  prepocessor : String
  prefix_ : String
  no_val_rss : ℚ
  floor : ℤ
  test_size : ℚ
  rssi_scaler : Scaler
  coords_preprocessing : Scaler
  training_fname : String
  testing_fname : String
  data_fname : String
  num_aps : ℕ
  waps_size : ℕ
  training_df : List Row
  testing_df : List Row
  training_data : Option TrainData
  testing_data : Option TestData
deriving DecidableEq, Repr

/-- Ceiling of a nonnegative rational as a natural number (used for the
`test_size` fraction: sklearn computes `n_test = ceil(test_size * n)`). -/
def natCeilQ (q : ℚ) : ℕ :=
  if q ≤ 0 then 0 else (q.num.toNat + q.den - 1) / q.den

/-- Model of `sklearn.model_selection.train_test_split(data, test_size)`.
The randomness is made explicit: `shuffle` is the list of row positions in
the order the RNG drew them.  The split takes the first
`ceil(test_size * n)` shuffled rows as the test partition and the rest as
the training partition; out-of-range positions select nothing. -/
def trainTestSplit (shuffle : List ℕ) (test_size : ℚ) (xs : List Row) :
    List Row × List Row :=
  let nTest := natCeilQ (test_size * xs.length)
  ((shuffle.drop nTest).filterMap (fun i => xs[i]?),
   (shuffle.take nTest).filterMap (fun i => xs[i]?))

/-- Model of `df.sample(frac=...)`: the RNG draws the list `sel` of row
positions that make up the sample. -/
def sampleFrac (sel : List ℕ) (xs : List Row) : List Row :=
  sel.filterMap (fun i => xs[i]?)

/-- Model of `Loader.load_data`.  `data` is the parsed content of
`data.csv`; `shuffle`, `selTr`, `selTe` are the RNG draws of
`train_test_split` and the two `sample` calls.  The method filters the
rows whose `floor` equals `self.floor`, splits them, records the number of
AP columns, and down-samples each split when `self.frac < 1.0`. -/
def loadData (data : List Row) (shuffle selTr selTe : List ℕ)
    (st : LoaderState) : LoaderState :=
  let data := data.filter (fun r => r.floor == st.floor)
  let split := trainTestSplit shuffle st.test_size data
  let st1 := { st with
    training_df := split.1
    testing_df := split.2
    waps_size := ((split.1.headD default).aps).length }
  if st1.frac < 1 then
    { st1 with
      training_df := sampleFrac selTr st1.training_df
      testing_df := sampleFrac selTe st1.testing_df }
  else st1

/-- Model of `df[no_waps].fillna(no_val_rss)` on one row: every missing AP
cell becomes the sentinel, present cells are untouched. -/
def fillRow (s : ℚ) (r : Row) : Row :=
  { r with aps := r.aps.map (fun c => some (c.getD s)) }

/-- Model of `np.asarray(df[no_waps])` on one (already filled) row. -/
def rowVals (r : Row) : List ℚ := r.aps.map (fun c => c.getD 0)

/-- Model of `np.column_stack((df.xr, df.yr))`: the two-column coordinate
matrix. -/
def coordsOf (df : List Row) : List (List ℚ) :=
  df.map (fun r => [r.xr, r.yr])

/-- Model of `flat.reshape(original.shape)`: re-chunk the flat value list
into the row lengths of the original 2-D array. -/
def reshapeLike : List (List ℚ) → List ℚ → List (List ℚ)
  | [], _ => []
  | r :: rs, vals => vals.take r.length :: reshapeLike rs (vals.drop r.length)

/-- Model of `Loader.process_data`.  Mirrors the source step by step:
fill the AP columns of both dataframes with the sentinel; scale the RSS
matrices through `self.rssi_scaler` after `reshape((-1, 1))` (the whole
matrix flattened into one column) and reshape back; stack and scale the
coordinate columns through `self.coords_preprocessing`; build the four
namedtuple bundles.  Both `fit_transform` calls on a scaler refit the same
mutable object (first on the training data, then on the testing data), and
the bundles store a reference to that object — so, in the state this
function returns, both bundles hold the scaler in its final
(testing-fitted) state.  The `is not None` guards of the source are always
true (the constructor always assigns scaler objects, or has already
exited), so the embedding inlines the then-branches. -/
def processData (sqrtA : ℚ → ℚ) (st : LoaderState) : LoaderState :=
  let training_df := st.training_df.map (fillRow st.no_val_rss)
  let testing_df := st.testing_df.map (fillRow st.no_val_rss)
  let rss_training := training_df.map rowVals
  let rss_testing := testing_df.map rowVals
  let p1 := fitTransform sqrtA st.rssi_scaler (rss_training.flatten.map (fun v => [v]))
  let rss_training_scaled := reshapeLike rss_training p1.2.flatten
  let p2 := fitTransform sqrtA p1.1 (rss_testing.flatten.map (fun v => [v]))
  let rss_testing_scaled := reshapeLike rss_testing p2.2.flatten
  let training_coords := coordsOf training_df
  let testing_coords := coordsOf testing_df
  let q1 := fitTransform sqrtA st.coords_preprocessing training_coords
  let training_coords_scaled := q1.2
  let q2 := fitTransform sqrtA q1.1 testing_coords
  let testing_coords_scaled := q2.2
  let training_labels : TrainLabel :=
    { coords := training_coords
      coords_scaled := training_coords_scaled
      coords_scaler := q2.1 }
  let training_data : TrainData :=
    { rss := rss_training
      rss_scaled := rss_training_scaled
      rss_scaler := p2.1
      labels := training_labels }
  let testing_labels : TestLabel :=
    { coords := testing_coords
      coords_scaled := testing_coords_scaled
      coords_scaler := q2.1 }
  let testing_data : TestData :=
    { rss := rss_testing
      rss_scaled := rss_testing_scaled
      labels := testing_labels }
  { st with
    training_df := training_df
    testing_df := testing_df
    training_data := some training_data
    testing_data := some testing_data }

/-- Observable side effects of the `Loader` constructor. -/
inductive Effect where
  | printed (msg : String)
  | readCsv (fname : String)
deriving DecidableEq, Repr

/-- Model of `Loader.__init__`.  Returns either the constructed object
state or the `sys.exit` status, together with the list of side effects in
order.  The preprocessor dispatch happens before any file is touched; an
unsupported name prints the (format-string) message and calls
`sys.exit(0)`, so `load_data` / `process_data` never run.  `csv` is the
parsed content of `data.csv`; `shuffle`, `selTr`, `selTe`, `sqrtA` are as
in `loadData` / `processData`. -/
def loaderInit (path : String) (frac : ℚ) (preprocessor : String)
    (prefix_ : String) (no_val_rss : ℚ) (floor : ℤ) (test_size : ℚ)
    (csv : List Row) (shuffle selTr selTe : List ℕ) (sqrtA : ℚ → ℚ) :
    Except ℕ LoaderState × List Effect :=
  let mkState (rssi coords : Scaler) : LoaderState :=
    { path := path
      frac := frac
      prepocessor := preprocessor
      prefix_ := prefix_
      no_val_rss := no_val_rss
      floor := floor
      test_size := test_size
      rssi_scaler := rssi
      coords_preprocessing := coords
      training_fname := path ++ "trainingData.csv"
      testing_fname := path ++ "testingData.csv"
      data_fname := path ++ "data.csv"
      num_aps := 0
      training_df := []
      testing_df := []
      training_data := none
      testing_data := none
      waps_size := 0 }
  let run (rssi coords : Scaler) : Except ℕ LoaderState × List Effect :=
    let st0 := mkState rssi coords
    let st1 := loadData csv shuffle selTr selTe st0
    let st2 := processData sqrtA st1
    (.ok st2, [.readCsv st0.data_fname])
  if preprocessor = "standard_scaler" then
    run (.standard none) (.standard none)
  else if preprocessor = "min_max_scaler" then
    run (.minMax none) (.minMax none)
  else if preprocessor = "normalization" then
    run .normalizer .normalizer
  else
    (.error 0, [.printed ("\x7b\x7d - Preprocessing Method is not Supported! " ++ prefix_)])

/-! ## Model of `src/models/dnn_regression.py` (`class DNN_Regression`)

The keras functional API builds a directed acyclic graph of layers; it is
embedded as a tensor expression tree.  `Dense(u, activation=a, name=n)(x)`
becomes `Tensor.dense u a n x`, `Dropout(r)(x)` becomes
`Tensor.dropout r x`, `Concatenate()([xs])` becomes `Tensor.concat xs`,
and `Input(shape=(k,), name=n)` becomes `Tensor.input n k`. -/

inductive Tensor where
  | input (name : String) (shape : ℕ)
  | dense (units : ℕ) (activation : Option String) (name : Option String) (x : Tensor)
  | dropout (rate : ℚ) (x : Tensor)
  | concat (xs : List Tensor)

/-- Model of `keras.models.Model(inputs=..., outputs=...)` plus the
compile arguments (`optimizer`, `loss`, `metrics`) once `compile` has been
called. -/
structure NetModel where
  inputs : List Tensor
  outputs : List Tensor
  optimizer : Option String
  loss : Option String
  metricNames : List String

/-- Model of `model.compile(optimizer=self.optimizer, loss="mse",
metrics=["accuracy"])`. -/
def NetModel.compileMse (m : NetModel) (opt : Option String) : NetModel :=
  { m with optimizer := opt, loss := some "mse", metricNames := ["accuracy"] }

/-- RSS feature-extraction branch of `build_model` (both branches of the
`if` build it identically): 64-unit relu dense, dropout, 32-unit relu
dense on top of the `input_rss` input tensor. -/
def rssBranch (num_anchor : ℕ) (dropout : ℚ) : Tensor :=
  .dense 32 (some "relu") none
    (.dropout dropout
      (.dense 64 (some "relu") none (.input "input_rss" num_anchor)))

/-- TX-power feature-extraction branch of the `tx_power` arm of
`build_model`: same layer stack on top of the `input_power` input. -/
def powerBranch (num_anchor : ℕ) (dropout : ℚ) : Tensor :=
  .dense 32 (some "relu") none
    (.dropout dropout
      (.dense 64 (some "relu") none (.input "input_power" num_anchor)))

/-- Network built (and compiled) by the `tx_power` arm of `build_model`:
both branches concatenated, 128-unit dense, dropout, 64-unit dense merge
block, then the two single-unit output heads. -/
def buildGraphTx (num_anchor : ℕ) (dropout : ℚ) (opt : Option String) : NetModel :=
  let hidden_rss := rssBranch num_anchor dropout
  let hidden_power := powerBranch num_anchor dropout
  let merged := Tensor.concat [hidden_rss, hidden_power]
  let hidden_merged := Tensor.dense 64 (some "relu") none
    (.dropout dropout (.dense 128 (some "relu") none merged))
  let output_xr := Tensor.dense 1 none (some "output_xr") hidden_merged
  let output_yr := Tensor.dense 1 none (some "output_yr") hidden_merged
  NetModel.compileMse
    { inputs := [.input "input_rss" num_anchor, .input "input_power" num_anchor]
      outputs := [output_xr, output_yr]
      optimizer := none, loss := none, metricNames := [] } opt

/-- Network built (and compiled) by the `else` arm of `build_model`: the
two single-unit output heads attached directly to the RSS branch. -/
def buildGraphNoTx (num_anchor : ℕ) (dropout : ℚ) (opt : Option String) : NetModel :=
  let hidden_rss := rssBranch num_anchor dropout
  let output_xr := Tensor.dense 1 none (some "output_xr") hidden_rss
  let output_yr := Tensor.dense 1 none (some "output_yr") hidden_rss
  NetModel.compileMse
    { inputs := [.input "input_rss" num_anchor]
      outputs := [output_xr, output_yr]
      optimizer := none, loss := none, metricNames := [] } opt

/-- Fields of the `DNN_Regression` object that `build_model` reads and
writes (the methods are embedded against the field contents the class
intends; the constructor itself is modelled separately below). -/
structure TrainerState where
  tx_power : Bool
  dropout : ℚ
  optimizer : Option String
  model : Option NetModel
  rss_train_scaled : List (List ℚ)

/-- Model of `DNN_Regression.build_model`.  `num_anchor` is
`len(self.rss_train_scaled)`.  In the `tx_power` arm the source binds the
constructed and compiled network to the local variable `model` and never
assigns `self.model`; only the `else` arm stores the network in
`self.model`. -/
def buildModel (st : TrainerState) : TrainerState :=
  let num_anchor := st.rss_train_scaled.length
  if st.tx_power then
    let _model := buildGraphTx num_anchor st.dropout st.optimizer
    st
  else
    { st with model := some (buildGraphNoTx num_anchor st.dropout st.optimizer) }

/-- Mean squared error of two equal-length vectors, as
`sklearn.metrics.mean_squared_error` computes it. -/
def mseQ (ytrue ypred : List ℚ) : ℚ :=
  (((ytrue.zip ypred).map (fun p => (p.1 - p.2) ^ 2)).sum) / ytrue.length

/-- Coefficient of determination of two equal-length vectors, as
`sklearn.metrics.r2_score` computes it. -/
def r2Q (ytrue ypred : List ℚ) : ℚ :=
  let mu := colMean ytrue
  1 - (((ytrue.zip ypred).map (fun p => (p.1 - p.2) ^ 2)).sum) /
      ((ytrue.map (fun y => (y - mu) ^ 2)).sum)

/-- Metric values reported by `DNN_Regression.evaluate`. -/
structure EvalMetrics where
  xr_mse : ℚ
  yr_mse : ℚ
  xr_r2 : ℚ
  yr_r2 : ℚ
deriving DecidableEq, Repr

/-- Fields of the `DNN_Regression` object that `evaluate` reads.
`predict` stands for the trained `self.model.predict`: it maps the list of
input arrays to the pair of `(n, 1)`-shaped output arrays.
`preprocessor` is the `self.preprocessor` attribute; the claim under test
reads it as the fitted coordinate scaler, so it is given type `Scaler`
(in the shipped code the attribute actually holds the preprocessor name
string, which has no `inverse_transform` attribute at all). -/
structure EvalEnv where
  tx_power : Bool
  preprocessor : Scaler
  predict : List (List (List ℚ)) → List (List ℚ) × List (List ℚ)
  rss_test_scaled : List (List ℚ)
  power_test : List (List ℚ)
  xr_test_scaled : List ℚ
  yr_test_scaled : List ℚ

/-- Model of `DNN_Regression.evaluate`.  Runs inference on the scaled test
inputs, then inverse-transforms the two `(n, 1)` prediction arrays and the
two 1-D ground-truth slices through `self.preprocessor`, and computes MSE
and R2 per coordinate.  Each `inverse_transform` call can raise, which the
`Except` propagates. -/
def evaluate (e : EvalEnv) : Except String EvalMetrics := do
  let preds :=
    if e.tx_power then e.predict [e.rss_test_scaled, e.power_test]
    else e.predict [e.rss_test_scaled]
  let xr_pred ← inverseTransform e.preprocessor preds.1
  let yr_pred ← inverseTransform e.preprocessor preds.2
  let xr_test ← inverseTransform1D e.preprocessor e.xr_test_scaled
  let yr_test ← inverseTransform1D e.preprocessor e.yr_test_scaled
  pure
    { xr_mse := mseQ xr_test xr_pred.flatten
      yr_mse := mseQ yr_test yr_pred.flatten
      xr_r2 := r2Q xr_test xr_pred.flatten
      yr_r2 := r2Q yr_test yr_pred.flatten }

/-! ## Model of `DNN_Regression.__init__` at the Python object level

The constructor stores three of its arguments with a trailing comma
(`self.training_data = training_data,` and likewise `testing_data` and
`optimizer`), which in Python builds a 1-element tuple.  The subsequent
attribute accesses are evaluated against Python attribute-lookup
semantics: a plain tuple has no data attributes, so looking one up raises
`AttributeError`. -/

inductive PyVal where
  | tup (xs : List PyVal)
  | trainBundle (b : TrainData)
  | testBundle (b : TestData)
  | trainLabelV (l : TrainLabel)
  | testLabelV (l : TestLabel)
  | mat (m : List (List ℚ))
  | vec (v : List ℚ)
  | scalerV (s : Scaler)
  | str (s : String)
  | pynone

/-- Python attribute lookup on the values above.  The namedtuple bundles
expose exactly the fields their `namedtuple` declarations list; a tuple
exposes none. -/
def pyGetAttr : PyVal → String → Except String PyVal
  | .tup _, f => .error ("AttributeError: tuple object has no attribute " ++ f)
  | .trainBundle b, "rss" => .ok (.mat b.rss)
  | .trainBundle b, "rss_scaled" => .ok (.mat b.rss_scaled)
  | .trainBundle b, "rss_scaler" => .ok (.scalerV b.rss_scaler)
  | .trainBundle b, "labels" => .ok (.trainLabelV b.labels)
  | .trainBundle _, f => .error ("AttributeError: TrainData object has no attribute " ++ f)
  | .testBundle b, "rss" => .ok (.mat b.rss)
  | .testBundle b, "rss_scaled" => .ok (.mat b.rss_scaled)
  | .testBundle b, "labels" => .ok (.testLabelV b.labels)
  | .testBundle _, f => .error ("AttributeError: TestData object has no attribute " ++ f)
  | .trainLabelV l, "coords" => .ok (.mat l.coords)
  | .trainLabelV l, "coords_scaled" => .ok (.mat l.coords_scaled)
  | .trainLabelV l, "coords_scaler" => .ok (.scalerV l.coords_scaler)
  | .trainLabelV _, f => .error ("AttributeError: TrainLabel object has no attribute " ++ f)
  | .testLabelV l, "coords" => .ok (.mat l.coords)
  | .testLabelV l, "coords_scaled" => .ok (.mat l.coords_scaled)
  | .testLabelV l, "coords_scaler" => .ok (.scalerV l.coords_scaler)
  | .testLabelV _, f => .error ("AttributeError: TestLabel object has no attribute " ++ f)
  | .mat _, f => .error ("AttributeError: ndarray object has no attribute " ++ f)
  | .vec _, f => .error ("AttributeError: ndarray object has no attribute " ++ f)
  | .scalerV _, f => .error ("AttributeError: scaler object has no attribute " ++ f)
  | .str _, f => .error ("AttributeError: str object has no attribute " ++ f)
  | .pynone, f => .error ("AttributeError: NoneType object has no attribute " ++ f)

/-- Model of the numpy column slice `a[:, j]` (used on
`...labels.coords_scaled`). -/
def pyColSlice (v : PyVal) (j : ℕ) : Except String PyVal :=
  match v with
  | .mat m => .ok (.vec (m.map (fun r => r.getD j 0)))
  | _ => .error "TypeError: object is not subscriptable"

/-- Object state `DNN_Regression.__init__` would produce if it ran to
completion. -/
structure DnnSelf where
  random_state : Option ℤ
  training_data : PyVal
  testing_data : PyVal
  preprocessor : String
  batch_size : ℕ
  epochs : ℕ
  optimizer : PyVal
  validation_split : Option ℚ
  dropout : ℚ
  tx_power : Bool
  patience : ℕ
  checkpoint_filepath : String
  save_model : Bool
  model : Option NetModel
  rss_train_scaled : PyVal
  power_train : PyVal
  xr_train_scaled : PyVal
  yr_train_scaled : PyVal
  rss_test_scaled : PyVal
  power_test : PyVal
  xr_test_scaled : PyVal
  yr_test_scaled : PyVal

/-- Model of `DNN_Regression.__init__`, assignment by assignment.  The
trailing commas on the `training_data`, `testing_data` and `optimizer`
assignments wrap the arguments in 1-element tuples; every later attribute
access on those tuples is routed through `pyGetAttr`. -/
def dnnInit (training_data testing_data : PyVal) (random_state : Option ℤ)
    (preprocessor : String) (batch_size epochs : ℕ) (optimizer : PyVal)
    (validation_split : Option ℚ) (dropout : ℚ) (tx_power : Bool)
    (patience : ℕ) (checkpoint_filepath : String) (save_model : Bool) :
    Except String DnnSelf := do
  let self_training_data := PyVal.tup [training_data]
  let self_testing_data := PyVal.tup [testing_data]
  let self_optimizer := PyVal.tup [optimizer]
  let rss_train_scaled ← pyGetAttr self_training_data "rss_scaled"
  let power_train ← pyGetAttr self_training_data "power"
  let train_labels ← pyGetAttr self_testing_data "labels"
  let train_coords_scaled ← pyGetAttr train_labels "coords_scaled"
  let xr_train_scaled ← pyColSlice train_coords_scaled 0
  let yr_train_scaled ← pyColSlice train_coords_scaled 1
  let rss_test_scaled ← pyGetAttr self_testing_data "rss_scaled"
  let power_test ← pyGetAttr self_testing_data "power"
  let test_labels ← pyGetAttr self_testing_data "labels"
  let test_coords_scaled ← pyGetAttr test_labels "coords_scaled"
  let xr_test_scaled ← pyColSlice test_coords_scaled 0
  let yr_test_scaled ← pyColSlice test_coords_scaled 1
  pure
    { random_state := random_state
      training_data := self_training_data
      testing_data := self_testing_data
      preprocessor := preprocessor
      batch_size := batch_size
      epochs := epochs
      optimizer := self_optimizer
      validation_split := validation_split
      dropout := dropout
      tx_power := tx_power
      patience := patience
      checkpoint_filepath := checkpoint_filepath
      save_model := save_model
      model := none
      rss_train_scaled := rss_train_scaled
      power_train := power_train
      xr_train_scaled := xr_train_scaled
      yr_train_scaled := yr_train_scaled
      rss_test_scaled := rss_test_scaled
      power_test := power_test
      xr_test_scaled := xr_test_scaled
      yr_test_scaled := yr_test_scaled }

/-! ## Claim theorems -/

/-- Claim C1: for every pair of input data bundles (indeed for arbitrary
argument values), `DNN_Regression.__init__` fails before returning: the
trailing commas store 1-element tuples in `self.training_data`,
`self.testing_data` and `self.optimizer`, and the very first attribute
access `self.training_data.rss_scaled` raises `AttributeError` because a
tuple has no such attribute, so no instance is ever fully constructed. -/
theorem dnn_init_never_constructs
    (training_data testing_data : PyVal) (random_state : Option ℤ)
    (preprocessor : String) (batch_size epochs : ℕ) (optimizer : PyVal)
    (validation_split : Option ℚ) (dropout : ℚ) (tx_power : Bool)
    (patience : ℕ) (checkpoint_filepath : String) (save_model : Bool) :
    dnnInit training_data testing_data random_state preprocessor batch_size
        epochs optimizer validation_split dropout tx_power patience
        checkpoint_filepath save_model =
      .error "AttributeError: tuple object has no attribute rss_scaled" := rfl

/-- Concrete trainer state with the transmit-power branch enabled and no
model built yet, exhibiting the `build_model` defect for claim C3. -/
def stTxExample : TrainerState :=
  { tx_power := true
    dropout := 1 / 5
    optimizer := some "adam"
    model := none
    rss_train_scaled := [[0, -50], [1, -60]] }

/-- Claim C3 (code bug): with the transmit-power flag enabled,
`build_model` binds the newly constructed and compiled network to the
local variable `model` and never assigns `self.model`, so the model field
is still `None` after `build_model` returns and a subsequent `train` or
`evaluate` hits exactly the null-model fault the claim rules out.  With
the flag disabled the field does hold the new network, so the defect is
specific to the enabled branch. -/
theorem build_model_tx_power_leaves_model_none :
    stTxExample.tx_power = true ∧
    (buildModel stTxExample).model = none ∧
    (buildModel { stTxExample with tx_power := false }).model =
      some (buildGraphNoTx 2 (1 / 5) (some "adam")) :=
  ⟨rfl, rfl, rfl⟩

/-- Claim C9: with the transmit-power flag disabled, `build_model`
constructs a compiled network with exactly one input tensor whose RSS
branch (64-unit dense, dropout, 32-unit dense) feeds the two single-unit
output heads directly; with the flag enabled, a network with exactly two
input tensors, two identically shaped branches joined by a concatenation
layer, then a 128-unit dense, dropout, 64-unit dense merge block before
the two single-unit output heads. -/
theorem build_model_architecture (n : ℕ) (d : ℚ) (opt : Option String) :
    (buildGraphNoTx n d opt).inputs = [.input "input_rss" n] ∧
    (buildGraphNoTx n d opt).outputs =
      [.dense 1 none (some "output_xr") (rssBranch n d),
       .dense 1 none (some "output_yr") (rssBranch n d)] ∧
    rssBranch n d =
      .dense 32 (some "relu") none
        (.dropout d (.dense 64 (some "relu") none (.input "input_rss" n))) ∧
    (buildGraphTx n d opt).inputs =
      [.input "input_rss" n, .input "input_power" n] ∧
    (buildGraphTx n d opt).outputs =
      [.dense 1 none (some "output_xr")
         (.dense 64 (some "relu") none
           (.dropout d (.dense 128 (some "relu") none
             (.concat [rssBranch n d, powerBranch n d])))),
       .dense 1 none (some "output_yr")
         (.dense 64 (some "relu") none
           (.dropout d (.dense 128 (some "relu") none
             (.concat [rssBranch n d, powerBranch n d]))))] ∧
    powerBranch n d =
      .dense 32 (some "relu") none
        (.dropout d (.dense 64 (some "relu") none (.input "input_power" n))) :=
  ⟨rfl, rfl, rfl, rfl, rfl, rfl⟩

/-- Claim C8: an unsupported preprocessor name makes `Loader.__init__`
print the diagnostic message and terminate the process via `sys.exit(0)`;
it never returns a `Loader` object and never reads the dataset file (the
effect trace holds the printed message only, no `readCsv`). -/
theorem loader_init_unsupported_preprocessor_exits
    (path : String) (frac : ℚ) (preprocessor : String) (prefix_ : String)
    (no_val_rss : ℚ) (floor : ℤ) (test_size : ℚ) (csv : List Row)
    (shuffle selTr selTe : List ℕ) (sqrtA : ℚ → ℚ)
    (h1 : preprocessor ≠ "standard_scaler")
    (h2 : preprocessor ≠ "min_max_scaler")
    (h3 : preprocessor ≠ "normalization") :
    loaderInit path frac preprocessor prefix_ no_val_rss floor test_size
        csv shuffle selTr selTe sqrtA =
      (.error 0,
       [.printed ("\x7b\x7d - Preprocessing Method is not Supported! " ++ prefix_)]) := by
  unfold loaderInit
  rw [if_neg h1, if_neg h2, if_neg h3]

/-- Witness for claim C8 at the concrete unsupported name
`"robust_scaler"`. -/
theorem loader_init_unsupported_preprocessor_exits_witness :
    ("robust_scaler" ≠ "standard_scaler" ∧ "robust_scaler" ≠ "min_max_scaler" ∧
     "robust_scaler" ≠ "normalization") ∧
    loaderInit "../datas/" (1 / 10) "robust_scaler" "IPS-LOADER" 100 1 (1 / 5)
        [] [] [] [] (fun q => q) =
      (.error 0,
       [.printed ("\x7b\x7d - Preprocessing Method is not Supported! " ++ "IPS-LOADER")]) :=
  ⟨⟨by decide, by decide, by decide⟩,
   loader_init_unsupported_preprocessor_exits "../datas/" (1 / 10)
     "robust_scaler" "IPS-LOADER" 100 1 (1 / 5) [] [] [] [] (fun q => q)
     (by decide) (by decide) (by decide)⟩

/-! ### Helper lemmas for `load_data` (claim C7) -/

theorem mem_of_selected {xs : List Row} {l : List ℕ} {r : Row}
    (h : r ∈ l.filterMap (fun i => xs[i]?)) : r ∈ xs := by
  rcases List.mem_filterMap.mp h with ⟨i, _, hi⟩
  exact List.getElem?_mem hi

theorem selected_spec {xs : List Row} {l : List ℕ} {r : Row}
    (h : r ∈ l.filterMap (fun i => xs[i]?)) : ∃ i ∈ l, xs[i]? = some r :=
  List.mem_filterMap.mp h

theorem idx_ne_of_getElem?_ne {xs : List Row} {i j : ℕ} {a b : Row}
    (hnd : (xs.map Row.idx).Nodup) (hi : xs[i]? = some a) (hj : xs[j]? = some b)
    (hij : i ≠ j) : a.idx ≠ b.idx := by
  intro hab
  apply hij
  have hi2 : (xs.map Row.idx)[i]? = some a.idx := by
    rw [List.getElem?_map, hi]; rfl
  have hj2 : (xs.map Row.idx)[j]? = some b.idx := by
    rw [List.getElem?_map, hj]; rfl
  have hlen : i < (xs.map Row.idx).length := by
    rcases List.getElem?_eq_some_iff.mp hi2 with ⟨h, _⟩
    exact h
  exact List.getElem?_inj hlen hnd (by rw [hi2, hj2, hab])

/-- Membership in either partition of `loadData` comes with the shuffled
position that produced the row. -/
theorem loadData_train_mem {data : List Row} {shuffle selTr selTe : List ℕ}
    {st : LoaderState} {r : Row}
    (h : r ∈ (loadData data shuffle selTr selTe st).training_df) :
    ∃ i ∈ shuffle.drop (natCeilQ (st.test_size *
        (data.filter (fun x => x.floor == st.floor)).length)),
      (data.filter (fun x => x.floor == st.floor))[i]? = some r := by
  unfold loadData trainTestSplit at h
  by_cases hf : st.frac < 1
  · simp only [if_pos hf] at h
    exact selected_spec (mem_of_selected h)
  · simp only [if_neg hf] at h
    exact selected_spec h

theorem loadData_test_mem {data : List Row} {shuffle selTr selTe : List ℕ}
    {st : LoaderState} {r : Row}
    (h : r ∈ (loadData data shuffle selTr selTe st).testing_df) :
    ∃ i ∈ shuffle.take (natCeilQ (st.test_size *
        (data.filter (fun x => x.floor == st.floor)).length)),
      (data.filter (fun x => x.floor == st.floor))[i]? = some r := by
  unfold loadData trainTestSplit at h
  by_cases hf : st.frac < 1
  · simp only [if_pos hf] at h
    exact selected_spec (mem_of_selected h)
  · simp only [if_neg hf] at h
    exact selected_spec h

/-- Claim C7: after `load_data` filters by floor and splits (and possibly
down-samples), every training row and every testing row carries the
configured floor, and the two partitions are disjoint: no row (identified
by its pandas index, distinct across the parsed CSV) belongs to both.
`shuffle` nodup reflects that `train_test_split` permutes row positions
without repetition. -/
theorem load_data_floor_filter_and_disjoint
    (data : List Row) (shuffle selTr selTe : List ℕ) (st : LoaderState)
    (hsh : shuffle.Nodup) (hidx : (data.map Row.idx).Nodup) :
    (∀ r ∈ (loadData data shuffle selTr selTe st).training_df, r.floor = st.floor) ∧
    (∀ r ∈ (loadData data shuffle selTr selTe st).testing_df, r.floor = st.floor) ∧
    (∀ r ∈ (loadData data shuffle selTr selTe st).training_df,
     ∀ q ∈ (loadData data shuffle selTr selTe st).testing_df, r.idx ≠ q.idx) := by
  have hfiltered : (((data.filter (fun x => x.floor == st.floor)).map Row.idx)).Nodup :=
    ((List.filter_sublist data).map Row.idx).nodup hidx
  have floor_of_mem : ∀ {r : Row},
      r ∈ data.filter (fun x => x.floor == st.floor) → r.floor = st.floor := by
    intro r hr
    have := List.of_mem_filter hr
    exact beq_iff_eq.mp this
  refine ⟨?_, ?_, ?_⟩
  · intro r hr
    rcases loadData_train_mem hr with ⟨i, _, hi⟩
    exact floor_of_mem (List.getElem?_mem hi)
  · intro r hr
    rcases loadData_test_mem hr with ⟨i, _, hi⟩
    exact floor_of_mem (List.getElem?_mem hi)
  · intro r hr q hq
    rcases loadData_train_mem hr with ⟨i, hiMem, hi⟩
    rcases loadData_test_mem hq with ⟨j, hjMem, hj⟩
    have hij : i ≠ j := by
      intro hEq
      exact List.disjoint_take_drop hsh (Nat.le_refl _) hjMem (hEq ▸ hiMem)
    exact idx_ne_of_getElem?_ne hfiltered hi hj hij

/-- Generic concrete `Loader` state used by the witnesses below (field
values as in the defaults of `Loader.__init__` except where a witness
overrides them). -/
def exState : LoaderState :=
  { path := "../datas/"
    frac := 1
    prepocessor := "standard_scaler"
    prefix_ := "IPS-LOADER"
    no_val_rss := 100
    floor := 1
    test_size := 1 / 2
    rssi_scaler := .standard none
    coords_preprocessing := .standard none
    training_fname := "../datas/trainingData.csv"
    testing_fname := "../datas/testingData.csv"
    data_fname := "../datas/data.csv"
    num_aps := 0
    waps_size := 0
    training_df := []
    testing_df := []
    training_data := none
    testing_data := none }

/-- Concrete dataset for the claim C7 witness: three rows, two on floor 1
and one on floor 2, with distinct pandas indices. -/
def dataEx : List Row :=
  [{ idx := 0, floor := 1, aps := [some (-40)], xr := 0, yr := 0 },
   { idx := 1, floor := 2, aps := [some (-50)], xr := 1, yr := 1 },
   { idx := 2, floor := 1, aps := [some (-60)], xr := 2, yr := 2 }]

/-- Witness for claim C7 at a concrete dataset and shuffle. -/
theorem load_data_floor_filter_and_disjoint_witness :
    (([1, 0] : List ℕ).Nodup ∧ (dataEx.map Row.idx).Nodup) ∧
    ((∀ r ∈ (loadData dataEx [1, 0] [] [] exState).training_df, r.floor = exState.floor) ∧
     (∀ r ∈ (loadData dataEx [1, 0] [] [] exState).testing_df, r.floor = exState.floor) ∧
     (∀ r ∈ (loadData dataEx [1, 0] [] [] exState).training_df,
      ∀ q ∈ (loadData dataEx [1, 0] [] [] exState).testing_df, r.idx ≠ q.idx)) :=
  ⟨⟨by decide, by decide⟩,
   load_data_floor_filter_and_disjoint dataEx [1, 0] [] [] exState
     (by decide) (by decide)⟩

/-- Claim C10: `process_data` stores the fill result back into both
dataframes, and the fill step maps every missing AP cell to exactly the
configured sentinel, leaves no missing value in any feature column, and
keeps every present cell unchanged. -/
theorem process_data_fill_step (sqrtA : ℚ → ℚ) (st : LoaderState) :
    (processData sqrtA st).training_df = st.training_df.map (fillRow st.no_val_rss) ∧
    (processData sqrtA st).testing_df = st.testing_df.map (fillRow st.no_val_rss) ∧
    ∀ (s : ℚ) (r : Row),
      (fillRow s r).aps.length = r.aps.length ∧
      (∀ c ∈ (fillRow s r).aps, c ≠ none) ∧
      ∀ p ∈ r.aps.zip (fillRow s r).aps,
        (p.1 = none → p.2 = some s) ∧ ∀ v : ℚ, p.1 = some v → p.2 = some v := by
  refine ⟨rfl, rfl, ?_⟩
  intro s r
  refine ⟨by simp [fillRow], ?_, ?_⟩
  · intro c hc
    rcases List.mem_map.mp hc with ⟨c0, _, rfl⟩
    simp
  · intro p hp
    have key : ∀ l : List (Option ℚ),
        l.zip (l.map (fun c => some (c.getD s))) =
          l.map (fun c => (c, some (c.getD s))) := by
      intro l
      induction l with
      | nil => rfl
      | cons c t ih => simp [ih]
    rw [show (fillRow s r).aps = r.aps.map (fun c => some (c.getD s)) from rfl,
        key r.aps] at hp
    rcases List.mem_map.mp hp with ⟨c0, _, rfl⟩
    cases c0 with
    | none =>
        refine ⟨fun _ => rfl, fun v hv => ?_⟩
        exact absurd hv (by simp)
    | some a =>
        refine ⟨fun h0 => absurd h0 (by simp), fun v hv => ?_⟩
        have hav : a = v := by simpa using hv
        simp [hav]

/-- Concrete stand-in for the library square root used by the witnesses
and counterexamples below: it agrees with the exact square root on every
input at which those concrete developments evaluate it (0, 1, 4, 25, 100).
All universally quantified theorems in this file hold for every `sqrtA`,
so the choice only fixes the numbers in the concrete examples. -/
def testSqrt (q : ℚ) : ℚ :=
  if q = 0 then 0 else if q = 1 then 1 else if q = 4 then 2
  else if q = 25 then 5 else if q = 100 then 10 else q

/-! ### Helper lemmas for the flattened RSS scaling (claim C6) -/

theorem flatten_map_singleton (f : ℚ → ℚ) (vals : List ℚ) :
    ((vals.map (fun v => [f v])).flatten) = vals.map f := by
  induction vals with
  | nil => rfl
  | cons v t ih => simp [ih]

theorem reshapeLike_map (g : ℚ → ℚ) :
    ∀ shape : List (List ℚ),
      reshapeLike shape (shape.flatten.map g) = shape.map (fun r => r.map g) := by
  intro shape
  induction shape with
  | nil => rfl
  | cons r rs ih =>
      simp only [reshapeLike, List.flatten_cons, List.map_append]
      rw [List.take_left' (by simp), List.drop_left' (by simp), ih]
      rfl

theorem stdFit_singleton_col (sqrtA : ℚ → ℚ) (v0 : ℚ) (tl : List ℚ) :
    stdFit sqrtA ((v0 :: tl).map (fun v => [v])) =
      [(colMean (v0 :: tl), handleZerosInScale (sqrtA (colVar (v0 :: tl))))] := by
  unfold stdFit columnsOf
  simp [List.range_succ, List.map_map, Function.comp_def]

theorem mmFit_singleton_col (v0 : ℚ) (tl : List ℚ) :
    mmFit ((v0 :: tl).map (fun v => [v])) =
      [(1 / handleZerosInScale (colMax (v0 :: tl) - colMin (v0 :: tl)),
        0 - colMin (v0 :: tl) * (1 / handleZerosInScale (colMax (v0 :: tl) - colMin (v0 :: tl))))] := by
  unfold mmFit columnsOf
  simp [List.range_succ, List.map_map, Function.comp_def]

/-- On a one-column array (the `reshape((-1, 1))` of the flattened RSS
matrix) every scaler kind acts as a single scalar function applied to
each value — one shared statistic, no per-column dependence. -/
theorem fitTransform_singleton_col (sqrtA : ℚ → ℚ) (s : Scaler) (vals : List ℚ) :
    ∃ f : ℚ → ℚ,
      (fitTransform sqrtA s (vals.map (fun v => [v]))).2 = vals.map (fun v => [f v]) := by
  cases s with
  | normalizer =>
      refine ⟨fun v => if sqrtA (sumSq [v]) = 0 then v else v / sqrtA (sumSq [v]), ?_⟩
      simp only [fitTransform, List.map_map]
      apply List.map_congr_left
      intro v _
      simp only [Function.comp_apply, normalizeRow]
      by_cases h : sqrtA (sumSq [v]) = 0
      · simp [h]
      · simp [h]
  | standard fitted =>
      cases vals with
      | nil => exact ⟨id, rfl⟩
      | cons v0 tl =>
          refine ⟨fun v => (v - colMean (v0 :: tl)) /
            handleZerosInScale (sqrtA (colVar (v0 :: tl))), ?_⟩
          simp only [fitTransform, stdFit_singleton_col, List.map_map]
          apply List.map_congr_left
          intro v _
          simp [stdTransformRow]
  | minMax fitted =>
      cases vals with
      | nil => exact ⟨id, rfl⟩
      | cons v0 tl =>
          refine ⟨fun v => v * (1 / handleZerosInScale (colMax (v0 :: tl) - colMin (v0 :: tl))) +
            (0 - colMin (v0 :: tl) *
              (1 / handleZerosInScale (colMax (v0 :: tl) - colMin (v0 :: tl)))), ?_⟩
          simp only [fitTransform, mmFit_singleton_col, List.map_map]
          apply List.map_congr_left
          intro v _
          simp [mmTransformRow]

theorem shape_facts_of_map (f : ℚ → ℚ) (l : List (List ℚ)) :
    (l.map (fun r => r.map f)).length = l.length ∧
    ∀ p ∈ (l.map (fun r => r.map f)).zip l, p.1.length = p.2.length := by
  constructor
  · simp
  · have key : ∀ m : List (List ℚ),
        (m.map (fun r => r.map f)).zip m = m.map (fun a => (a.map f, a)) := by
      intro m
      induction m with
      | nil => rfl
      | cons a t ih => simp [ih]
    intro p hp
    rw [key] at hp
    rcases List.mem_map.mp hp with ⟨a, _, rfl⟩
    simp

/-- Claim C6: `process_data` scales each RSS matrix by fitting the chosen
scaler on the flattened feature values (all AP columns reshaped into one
column), so the scaled matrix is a single scalar function applied
entrywise — one shared scale statistic, not per-column statistics — and it
has exactly the shape of the raw matrix (same row count and row widths). -/
theorem process_data_rss_flattened_fit (sqrtA : ℚ → ℚ) (st : LoaderState) :
    (∀ td, (processData sqrtA st).training_data = some td →
       (∃ f : ℚ → ℚ, td.rss_scaled = td.rss.map (fun r => r.map f)) ∧
       td.rss_scaled.length = td.rss.length ∧
       ∀ p ∈ td.rss_scaled.zip td.rss, p.1.length = p.2.length) ∧
    (∀ te, (processData sqrtA st).testing_data = some te →
       (∃ f : ℚ → ℚ, te.rss_scaled = te.rss.map (fun r => r.map f)) ∧
       te.rss_scaled.length = te.rss.length ∧
       ∀ p ∈ te.rss_scaled.zip te.rss, p.1.length = p.2.length) := by
  constructor
  · intro td h
    simp only [processData, Option.some.injEq] at h
    subst h
    dsimp only
    obtain ⟨f, hf⟩ := fitTransform_singleton_col sqrtA st.rssi_scaler
      (((st.training_df.map (fillRow st.no_val_rss)).map rowVals).flatten)
    rw [hf, flatten_map_singleton, reshapeLike_map]
    exact ⟨⟨f, rfl⟩, shape_facts_of_map f _⟩
  · intro te h
    simp only [processData, Option.some.injEq] at h
    subst h
    dsimp only
    obtain ⟨f, hf⟩ := fitTransform_singleton_col sqrtA
      (fitTransform sqrtA st.rssi_scaler
        ((((st.training_df.map (fillRow st.no_val_rss)).map rowVals).flatten).map
          (fun v => [v]))).1
      (((st.testing_df.map (fillRow st.no_val_rss)).map rowVals).flatten)
    rw [hf, flatten_map_singleton, reshapeLike_map]
    exact ⟨⟨f, rfl⟩, shape_facts_of_map f _⟩

/-! ### Helper lemmas for the coordinate-scaler claims (C4, C5) -/

theorem fitTransform_fst_hasInverse (sqrtA : ℚ → ℚ) (s : Scaler) (X : List (List ℚ)) :
    ((fitTransform sqrtA s X).1).hasInverse = s.hasInverse := by
  cases s <;> rfl

theorem rect_coordsOf (df : List Row) : Rect (coordsOf df) := by
  cases df with
  | nil =>
      intro r hr
      simp [coordsOf] at hr
  | cons d ds =>
      intro r hr
      rcases List.mem_map.mp hr with ⟨x, _, rfl⟩
      simp [coordsOf]

/-- Claim C5 (amended): for the standardization and min-max choices, for
any rectangular coordinate matrix, the fitted coordinate scaler satisfies
`inverse_transform(transform(coords)) == coords` (exactly, over exact
arithmetic).  The normalization choice is excluded: `Normalizer` has no
`inverse_transform`, and its transform is not even injective. -/
theorem coords_scaler_roundtrip_invertible_kinds (sqrtA : ℚ → ℚ) (s : Scaler)
    (coords : List (List ℚ)) (hinv : s.hasInverse = true) (hrect : Rect coords) :
    inverseTransform (fitTransform sqrtA s coords).1
      (fitTransform sqrtA s coords).2 = .ok coords :=
  fitTransform_roundtrip sqrtA s coords hinv hrect

/-- Witness for the amended claim C5 at the standardization choice and a
concrete coordinate matrix. -/
theorem coords_scaler_roundtrip_invertible_kinds_witness :
    ((Scaler.standard none).hasInverse = true ∧ Rect [[1, 2], [3, 4]]) ∧
    inverseTransform (fitTransform testSqrt (Scaler.standard none) [[1, 2], [3, 4]]).1
      (fitTransform testSqrt (Scaler.standard none) [[1, 2], [3, 4]]).2 =
      .ok [[1, 2], [3, 4]] :=
  ⟨⟨rfl, by decide⟩,
   coords_scaler_roundtrip_invertible_kinds testSqrt (Scaler.standard none)
     [[1, 2], [3, 4]] rfl (by decide)⟩

/-- Counterexample for claim C5 as stated: for the supported preprocessor
choice `normalization`, the round trip fails — `Normalizer` has no
`inverse_transform` attribute, and indeed no inverse can exist because its
transform identifies the distinct coordinate matrices `[[3, 4]]` and
`[[6, 8]]` (both are scaled to `[[3/5, 4/5]]`). -/
theorem coords_scaler_roundtrip_fails_for_normalizer :
    inverseTransform (fitTransform testSqrt Scaler.normalizer [[3, 4]]).1
        ((fitTransform testSqrt Scaler.normalizer [[3, 4]]).2) ≠ .ok [[3, 4]] ∧
    (fitTransform testSqrt Scaler.normalizer [[3, 4]]).2 =
      (fitTransform testSqrt Scaler.normalizer [[6, 8]]).2 := by
  constructor
  · simp [fitTransform, inverseTransform]
  · norm_num [fitTransform, normalizeRow, sumSq, testSqrt]

/-- Claim C4 (amended): when the configured preprocessor is one of the two
invertible kinds, the testing bundle returned by `process_data` stores a
coordinate scaler fitted with exactly the parameters that produced its
`coords_scaled`, so the inverse transform recovers the raw testing coords
exactly; the training bundle stores the very same (shared, testing-fitted)
scaler object, which is why the corresponding training round trip fails in
general. -/
theorem process_data_coords_scaler_testing_roundtrip (sqrtA : ℚ → ℚ)
    (st : LoaderState) (hinv : st.coords_preprocessing.hasInverse = true) :
    ∀ td te, (processData sqrtA st).training_data = some td →
      (processData sqrtA st).testing_data = some te →
      inverseTransform te.labels.coords_scaler te.labels.coords_scaled =
        .ok te.labels.coords ∧
      td.labels.coords_scaler = te.labels.coords_scaler := by
  intro td te h1 h2
  simp only [processData, Option.some.injEq] at h1 h2
  subst h1
  subst h2
  dsimp only
  refine ⟨?_, rfl⟩
  apply fitTransform_roundtrip
  · rw [fitTransform_fst_hasInverse]
    exact hinv
  · exact rect_coordsOf _

/-- Concrete training dataframe for the claim C4 development: floor-1 rows
with coordinates (0,0) and (2,2). -/
def dfTrainC4 : List Row :=
  [{ idx := 0, floor := 1, aps := [some 0], xr := 0, yr := 0 },
   { idx := 1, floor := 1, aps := [some 2], xr := 2, yr := 2 }]

/-- Concrete testing dataframe for the claim C4 development: floor-1 rows
with coordinates (10,10) and (12,12). -/
def dfTestC4 : List Row :=
  [{ idx := 2, floor := 1, aps := [some 10], xr := 10, yr := 10 },
   { idx := 3, floor := 1, aps := [some 12], xr := 12, yr := 12 }]

/-- Loader state entering `process_data` in the claim C4 development. -/
def exStateC4 : LoaderState :=
  { exState with training_df := dfTrainC4, testing_df := dfTestC4 }

/-- Training bundle `process_data` produces from `exStateC4` (the stored
coordinate scaler holds the testing-fit mean 11, scale 1 — not the
training-fit mean 1 that produced `coords_scaled`). -/
def tdC4 : TrainData :=
  { rss := [[0], [2]]
    rss_scaled := [[-1], [1]]
    rss_scaler := .standard (some [(11, 1)])
    labels :=
      { coords := [[0, 0], [2, 2]]
        coords_scaled := [[-1, -1], [1, 1]]
        coords_scaler := .standard (some [(11, 1), (11, 1)]) } }

/-- Counterexample for claim C4 as stated: at a concrete input the
training bundle of `process_data` stores a coords scaler whose inverse
transform maps the bundle `coords_scaled` to the *testing* coords
`[[10,10],[12,12]]`, not to the raw training coords `[[0,0],[2,2]]` — the
shared scaler object was refitted on the testing coords before the
function returned. -/
theorem process_data_training_roundtrip_fails :
    (processData testSqrt exStateC4).training_data = some tdC4 ∧
    inverseTransform tdC4.labels.coords_scaler tdC4.labels.coords_scaled =
      .ok [[10, 10], [12, 12]] ∧
    tdC4.labels.coords = [[0, 0], [2, 2]] ∧
    ([[10, 10], [12, 12]] : List (List ℚ)) ≠ [[0, 0], [2, 2]] := by
  refine ⟨?_, ?_, rfl, by norm_num⟩
  · norm_num [processData, exStateC4, exState, dfTrainC4, dfTestC4, fillRow, rowVals,
      coordsOf, fitTransform, stdFit, columnsOf, colMean, colVar, stdTransformRow,
      reshapeLike, handleZerosInScale, testSqrt, List.range_succ, tdC4]
    simp
  · norm_num [tdC4, inverseTransform, stdInverseRow]

/-- Testing bundle `process_data` produces from `exStateC4`. -/
def teC4 : TestData :=
  { rss := [[10], [12]]
    rss_scaled := [[-1], [1]]
    labels :=
      { coords := [[10, 10], [12, 12]]
        coords_scaled := [[-1, -1], [1, 1]]
        coords_scaler := .standard (some [(11, 1), (11, 1)]) } }

/-- Witness for the amended claim C4 at the concrete `exStateC4`. -/
theorem process_data_coords_scaler_testing_roundtrip_witness :
    (exStateC4.coords_preprocessing.hasInverse = true ∧
     (processData testSqrt exStateC4).training_data = some tdC4 ∧
     (processData testSqrt exStateC4).testing_data = some teC4) ∧
    (inverseTransform teC4.labels.coords_scaler teC4.labels.coords_scaled =
       .ok teC4.labels.coords ∧
     tdC4.labels.coords_scaler = teC4.labels.coords_scaler) := by
  have h1 : (processData testSqrt exStateC4).training_data = some tdC4 := by
    norm_num [processData, exStateC4, exState, dfTrainC4, dfTestC4, fillRow, rowVals,
      coordsOf, fitTransform, stdFit, columnsOf, colMean, colVar, stdTransformRow,
      reshapeLike, handleZerosInScale, testSqrt, List.range_succ, tdC4]
    simp
  have h2 : (processData testSqrt exStateC4).testing_data = some teC4 := by
    norm_num [processData, exStateC4, exState, dfTrainC4, dfTestC4, fillRow, rowVals,
      coordsOf, fitTransform, stdFit, columnsOf, colMean, colVar, stdTransformRow,
      reshapeLike, handleZerosInScale, testSqrt, List.range_succ, teC4]
    simp
  exact ⟨⟨rfl, h1, h2⟩,
    process_data_coords_scaler_testing_roundtrip testSqrt exStateC4 rfl tdC4 teC4 h1 h2⟩

/-- Loader state entering `process_data` in the claim C6 witness: one
training row with a missing AP cell (filled with the sentinel 100), one
testing row. -/
def exStateC6 : LoaderState :=
  { exState with
      training_df := [{ idx := 0, floor := 1, aps := [some 100, none], xr := 1, yr := 1 }]
      testing_df := [{ idx := 1, floor := 1, aps := [some 4, some 4], xr := 3, yr := 3 }] }

/-- Training bundle `process_data` produces from `exStateC6`. -/
def tdC6 : TrainData :=
  { rss := [[100, 100]]
    rss_scaled := [[0, 0]]
    rss_scaler := .standard (some [(4, 1)])
    labels :=
      { coords := [[1, 1]]
        coords_scaled := [[0, 0]]
        coords_scaler := .standard (some [(3, 1), (3, 1)]) } }

/-- Testing bundle `process_data` produces from `exStateC6`. -/
def teC6 : TestData :=
  { rss := [[4, 4]]
    rss_scaled := [[0, 0]]
    labels :=
      { coords := [[3, 3]]
        coords_scaled := [[0, 0]]
        coords_scaler := .standard (some [(3, 1), (3, 1)]) } }

/-- Witness for claim C6 at the concrete `exStateC6`. -/
theorem process_data_rss_flattened_fit_witness :
    ((processData testSqrt exStateC6).training_data = some tdC6 ∧
     (processData testSqrt exStateC6).testing_data = some teC6) ∧
    ((∃ f : ℚ → ℚ, tdC6.rss_scaled = tdC6.rss.map (fun r => r.map f)) ∧
     tdC6.rss_scaled.length = tdC6.rss.length ∧
     (∀ p ∈ tdC6.rss_scaled.zip tdC6.rss, p.1.length = p.2.length)) ∧
    ((∃ f : ℚ → ℚ, teC6.rss_scaled = teC6.rss.map (fun r => r.map f)) ∧
     teC6.rss_scaled.length = teC6.rss.length ∧
     ∀ p ∈ teC6.rss_scaled.zip teC6.rss, p.1.length = p.2.length) := by
  have h1 : (processData testSqrt exStateC6).training_data = some tdC6 := by
    norm_num [processData, exStateC6, exState, fillRow, rowVals, coordsOf, fitTransform,
      stdFit, columnsOf, colMean, colVar, stdTransformRow, reshapeLike,
      handleZerosInScale, testSqrt, List.range_succ, tdC6]
    try simp
  have h2 : (processData testSqrt exStateC6).testing_data = some teC6 := by
    norm_num [processData, exStateC6, exState, fillRow, rowVals, coordsOf, fitTransform,
      stdFit, columnsOf, colMean, colVar, stdTransformRow, reshapeLike,
      handleZerosInScale, testSqrt, List.range_succ, teC6]
    try simp
  exact ⟨⟨h1, h2⟩,
    (process_data_rss_flattened_fit testSqrt exStateC6).1 tdC6 h1,
    (process_data_rss_flattened_fit testSqrt exStateC6).2 teC6 h2⟩

/-- Evaluation environment exhibiting the claim C2 fault: the
`preprocessor` field holds the coordinate scaler exactly as the loader
fitted it (standard scaler, fitted last on the two-column testing
coordinate matrix `[[10,10],[12,12]]`), the model predicts the
`(n, 1)`-shaped arrays keras returns, and the ground-truth slices are the
1-D columns of `coords_scaled`. -/
def evalEnvC2 : EvalEnv :=
  { tx_power := false
    preprocessor := (fitTransform testSqrt (.standard none) [[10, 10], [12, 12]]).1
    predict := fun _ => ([[-1], [1]], [[-1], [1]])
    rss_test_scaled := [[-1], [1]]
    power_test := []
    xr_test_scaled := [-1, 1]
    yr_test_scaled := [-1, 1] }

/-- Claim C2 (code bug): `evaluate` cannot report the four metrics.  The
coordinate scaler is fitted on two features (x and y), but `evaluate`
hands `inverse_transform` the single-column prediction array, which
numpy rejects as a broadcast error (and the 1-D ground-truth slices would
be rejected by `check_array` next) — so the metric computation is never
reached.  In the shipped code the failure is even earlier: the
`self.preprocessor` attribute actually holds the preprocessor *name*
string, which has no `inverse_transform` at all. -/
theorem evaluate_inverse_transform_shape_fault :
    evalEnvC2.preprocessor = .standard (some [(11, 1), (11, 1)]) ∧
    evaluate evalEnvC2 = .error "ValueError: operands could not be broadcast together" := by
  have hpre : (fitTransform testSqrt (Scaler.standard none) [[10, 10], [12, 12]]).1 =
      Scaler.standard (some [(11, 1), (11, 1)]) := by
    norm_num [fitTransform, stdFit, columnsOf, colMean, colVar,
      handleZerosInScale, testSqrt, List.range_succ]
    try simp
  constructor
  · simpa only [evalEnvC2] using hpre
  · simp [evaluate, evalEnvC2, hpre, inverseTransform, Bind.bind, Except.bind]

end IPS
